import Mathlib

/-!
Verification development for the DailyRoutine-Monitoring core: a shallow
embedding of the activity accumulator, idle detector, busy-index calculator,
flush tick, session lifecycle and daily rollup from `monitor_service.py`,
`database.py` and `config.py`, together with theorems about the frozen
specification claims.

Times are rational seconds since an epoch (the source uses `datetime`
values and float second differences); calendar dates are integer day
indices, so day `d` starts at second `d * 86400`.  Window titles are lists
of characters (Python strings are sliced by code point).  Floats become ℚ;
the float square root in the mouse-distance update has no exact rational
counterpart, so the step functions take the point-to-point distance
function as a parameter and every theorem quantifies over it.
-/

namespace DailyRoutine

/-- Monitoring interval in seconds (`config.MONITOR_INTERVAL = 60`). -/
def MONITOR_INTERVAL : ℚ := 60

/-- Idle threshold in seconds (`config.IDLE_THRESHOLD = 10 * 60`). -/
def IDLE_THRESHOLD : ℚ := 10 * 60

/-- Busy-index weight configuration (`config.BUSY_WEIGHTS` keys). -/
structure BusyWeights where
  mouse_activity : ℚ
  keyboard_activity : ℚ
  window_switches : ℚ
  system_usage : ℚ

/-- Default weights from `config.BUSY_WEIGHTS`. -/
def BUSY_WEIGHTS : BusyWeights :=
  { mouse_activity := 30/100, keyboard_activity := 30/100,
    window_switches := 20/100, system_usage := 20/100 }

/-- Mutable state of `ActivityMonitor`: the in-memory counters, the last
mouse position and foreground-window title, and the last-activity clock. -/
structure MonitorState where
  mouse_distance : ℚ
  mouse_clicks : ℕ
  mouse_moves : ℕ
  keyboard_presses : ℕ
  window_switches : ℕ
  last_mouse_pos : Option (ℚ × ℚ)
  last_active_window : Option (List Char)
  last_activity_time : ℚ
deriving DecidableEq

/-- `ActivityMonitor.on_mouse_move`: adds the distance from the previous
position (when one exists), records the new position, counts the move and
marks the activity clock.  `dist` stands for the source's
`((x - x0) ** 2 + (y - y0) ** 2) ** 0.5`. -/
def on_mouse_move (dist : ℚ × ℚ → ℚ × ℚ → ℚ) (s : MonitorState)
    (x y : ℚ) (now : ℚ) : MonitorState :=
  let d : ℚ := match s.last_mouse_pos with
    | some p => dist p (x, y)
    | none => 0
  { s with mouse_distance := s.mouse_distance + d,
           last_mouse_pos := some (x, y),
           mouse_moves := s.mouse_moves + 1,
           last_activity_time := now }

/-- `ActivityMonitor.on_mouse_click`: counts only press transitions. -/
def on_mouse_click (s : MonitorState) (pressed : Bool) (now : ℚ) : MonitorState :=
  if pressed then
    { s with mouse_clicks := s.mouse_clicks + 1, last_activity_time := now }
  else s

/-- `ActivityMonitor.on_key_press`. -/
def on_key_press (s : MonitorState) (now : ℚ) : MonitorState :=
  { s with keyboard_presses := s.keyboard_presses + 1, last_activity_time := now }

/-- Window-switch detection inside `ActivityMonitor.get_active_window_info`:
`if self.last_active_window and self.last_active_window != window_title`.
Python truthiness makes an empty stored title (or `None`) skip the check. -/
def record_window_sample (s : MonitorState) (title : List Char) : MonitorState :=
  let inc : ℕ := match s.last_active_window with
    | some l => if l ≠ [] ∧ l ≠ title then 1 else 0
    | none => 0
  { s with window_switches := s.window_switches + inc,
           last_active_window := some title }

/-- `ActivityMonitor.get_active_window_info`: samples the foreground title
(`title`) and visible-window count (`wcount`), updating switch state. -/
def get_active_window_info (s : MonitorState) (title : List Char) (wcount : ℕ) :
    MonitorState × List Char × ℕ :=
  (record_window_sample s title, title, wcount)

/-- `ActivityMonitor.reset_counters`: zeroes the five counters only. -/
def reset_counters (s : MonitorState) : MonitorState :=
  { s with mouse_distance := 0, mouse_clicks := 0, mouse_moves := 0,
           keyboard_presses := 0, window_switches := 0 }

/-- `ActivityMonitor.is_idle`: true iff the time since the last activity
exceeds `IDLE_THRESHOLD`. -/
def is_idle (now last_activity_time : ℚ) : Bool :=
  decide (now - last_activity_time > IDLE_THRESHOLD)

/-- `ActivityMonitor.calculate_busy_index`: weighted sum of the four
sub-scores, clamped into [0, 100]. -/
def calculate_busy_index (w : BusyWeights) (mouse_activity keyboard_activity
    window_activity system_activity : ℚ) : ℚ :=
  let busy_index :=
    mouse_activity * w.mouse_activity +
    keyboard_activity * w.keyboard_activity +
    window_activity * w.window_switches +
    system_activity * w.system_usage
  min 100 (max 0 busy_index)

/-- Python's `round(x, 2)` on the stored floats, modelled as rounding to the
nearest multiple of 1/100 (the float tie-to-even detail is immaterial to the
claims). -/
def round2 (q : ℚ) : ℚ := ((round (q * 100) : ℤ) : ℚ) / 100

/-- One persisted row of `activity_records`. -/
structure MinuteRecord where
  timestamp : ℚ
  mouse_distance : ℚ
  mouse_clicks : ℕ
  mouse_moves : ℕ
  keyboard_presses : ℕ
  window_switches : ℕ
  active_windows : ℕ
  cpu_usage : ℚ
  memory_usage : ℚ
  busy_index : ℚ
  is_idle : Bool
  active_window_title : List Char
deriving DecidableEq

/-- One flush tick, `ActivityMonitor.collect_and_save_data`: sample the
window (mutating switch state), compute the normalized sub-scores and the
busy index, force it to 0 when idle, build the record (title truncated to
200 characters), hand it to `Database.save_activity_record` (whose outcome
is `saveOk`; it swallows its own errors and returns a bool), then reset the
counters unconditionally.  Returns (state after the tick, record built,
whether the save succeeded). -/
def collect_and_save_data (s : MonitorState) (now : ℚ) (title : List Char)
    (wcount : ℕ) (cpu_usage memory_usage : ℚ) (saveOk : Bool) :
    MonitorState × MinuteRecord × Bool :=
  let sampled := get_active_window_info s title wcount
  let s1 := sampled.1
  let active_window := sampled.2.1
  let window_count := sampled.2.2
  let interval_factor : ℚ := MONITOR_INTERVAL / 60
  let mouse_activity_score : ℚ := min 100 (
    (s1.mouse_distance / (5000 * interval_factor) * 50) +
    ((s1.mouse_clicks : ℚ) / (50 * interval_factor) * 30) +
    ((s1.mouse_moves : ℚ) / (500 * interval_factor) * 20))
  let keyboard_activity_score : ℚ :=
    min 100 ((s1.keyboard_presses : ℚ) / (300 * interval_factor) * 100)
  let window_activity_score : ℚ :=
    min 100 ((s1.window_switches : ℚ) / (10 * interval_factor) * 100)
  let system_activity_score : ℚ := (cpu_usage + memory_usage) / 2
  let busy_index := calculate_busy_index BUSY_WEIGHTS mouse_activity_score
    keyboard_activity_score window_activity_score system_activity_score
  let idle := is_idle now s1.last_activity_time
  let busy_index := if idle then 0 else busy_index
  let record : MinuteRecord :=
    { timestamp := now,
      mouse_distance := round2 s1.mouse_distance,
      mouse_clicks := s1.mouse_clicks,
      mouse_moves := s1.mouse_moves,
      keyboard_presses := s1.keyboard_presses,
      window_switches := s1.window_switches,
      active_windows := window_count,
      cpu_usage := round2 cpu_usage,
      memory_usage := round2 memory_usage,
      busy_index := round2 busy_index,
      is_idle := idle,
      active_window_title := active_window.take 200 }
  let s2 := reset_counters s1
  (s2, record, saveOk)

/-- Raw input events delivered to the accumulator between two flush ticks:
mouse moves, mouse clicks and key presses (each carrying the wall-clock time
of the callback), plus foreground-window samples. -/
inductive Event where
  | mouseMove (x y : ℚ) (now : ℚ)
  | mouseClick (pressed : Bool) (now : ℚ)
  | keyPress (now : ℚ)
  | windowSample (title : List Char)
deriving DecidableEq

/-- Dispatch one event to the corresponding `ActivityMonitor` callback. -/
def applyEvent (dist : ℚ × ℚ → ℚ × ℚ → ℚ) (s : MonitorState) : Event → MonitorState
  | Event.mouseMove x y now => on_mouse_move dist s x y now
  | Event.mouseClick pressed now => on_mouse_click s pressed now
  | Event.keyPress now => on_key_press s now
  | Event.windowSample title => record_window_sample s title

/-- Process a sequence of events in arrival order. -/
def processEvents (dist : ℚ × ℚ → ℚ × ℚ → ℚ) (s : MonitorState) :
    List Event → MonitorState
  | [] => s
  | e :: es => processEvents dist (applyEvent dist s e) es

/-- Number of press-transition mouse clicks in an event sequence. -/
def countClicks : List Event → ℕ
  | [] => 0
  | Event.mouseClick pressed _ :: es => (if pressed then 1 else 0) + countClicks es
  | _ :: es => countClicks es

/-- Number of mouse-move events in an event sequence. -/
def countMoves : List Event → ℕ
  | [] => 0
  | Event.mouseMove _ _ _ :: es => 1 + countMoves es
  | _ :: es => countMoves es

/-- Number of key-press events in an event sequence. -/
def countKeys : List Event → ℕ
  | [] => 0
  | Event.keyPress _ :: es => 1 + countKeys es
  | _ :: es => countKeys es

/-- Total mouse travel of an event sequence: the sum, over the mouse-move
events, of the distance from the previously seen position (`last` threads
the last-known position; a move with no previous position contributes 0). -/
def sumDist (dist : ℚ × ℚ → ℚ × ℚ → ℚ) : Option (ℚ × ℚ) → List Event → ℚ
  | _, [] => 0
  | last, Event.mouseMove x y _ :: es =>
      (match last with
        | some p => dist p (x, y)
        | none => 0) + sumDist dist (some (x, y)) es
  | last, _ :: es => sumDist dist last es

/-- Number of window switches registered by the window samples of an event
sequence: a sample whose title differs from the previously stored non-empty
title counts one switch (`last` threads the stored title). -/
def countSwitches : Option (List Char) → List Event → ℕ
  | _, [] => 0
  | last, Event.windowSample title :: es =>
      (match last with
        | some l => if l ≠ [] ∧ l ≠ title then 1 else 0
        | none => 0) + countSwitches (some title) es
  | last, _ :: es => countSwitches last es

/-- One row of the `sessions` table.  Columns that are SQL `NULL` until the
session is closed are `Option`; the columns with SQL `DEFAULT 0` start at 0. -/
structure Session where
  id : ℕ
  session_date : ℤ
  start_time : ℚ
  end_time : Option ℚ
  duration_minutes : Option ℤ
  active_minutes : Option ℕ
  idle_minutes : Option ℕ
  total_mouse_clicks : ℕ
  total_key_presses : ℕ
  average_busy_index : ℚ
deriving DecidableEq

/-- Calendar date (day index) of a timestamp, `datetime.date()`. -/
def dateOf (t : ℚ) : ℤ := ⌊t / 86400⌋

/-- Local hour of a timestamp, `strftime(Hformat, t)` read as an integer. -/
def hourOf (t : ℚ) : ℤ := ⌊t / 3600⌋ % 24

/-- Python `int()` applied to a rational: truncation toward zero. -/
def truncQ (q : ℚ) : ℤ := if 0 ≤ q then ⌊q⌋ else ⌈q⌉

/-- SQLite `lastrowid` for an `AUTOINCREMENT` key: one more than the largest
id in the table. -/
def nextId (db : List Session) : ℕ :=
  db.foldl (fun m s => max m s.id) 0 + 1

/-- `Database.start_session`: unconditionally inserts a new row with
`session_date = now.date()`, `start_time = now` and a NULL `end_time`, and
returns its id.  No check for an already-open session is made. -/
def start_session (db : List Session) (now : ℚ) : List Session × ℕ :=
  let sid := nextId db
  (db ++ [{ id := sid, session_date := dateOf now, start_time := now,
            end_time := none, duration_minutes := none, active_minutes := none,
            idle_minutes := none, total_mouse_clicks := 0,
            total_key_presses := 0, average_busy_index := 0 }], sid)

/-- Aggregates computed by `Database.end_session` over the records whose
timestamp is `BETWEEN start AND end` (both bounds inclusive): counts of
non-idle and idle records, click/press totals, average busy index (the SQL
`AVG` is NULL on an empty set, turned into 0 by `or 0`). -/
structure SessionStats where
  active_minutes : ℕ
  idle_minutes : ℕ
  total_clicks : ℕ
  total_presses : ℕ
  avg_busy : ℚ

/-- Record filter of `Database.end_session`'s statistics query. -/
def betweenTimes (a b : ℚ) (r : MinuteRecord) : Bool :=
  decide (a ≤ r.timestamp) && decide (r.timestamp ≤ b)

/-- Statistics query of `Database.end_session`. -/
def sessionStats (recs : List MinuteRecord) (a b : ℚ) : SessionStats :=
  let rs := recs.filter (betweenTimes a b)
  { active_minutes := rs.countP (fun r => !r.is_idle),
    idle_minutes := rs.countP (fun r => r.is_idle),
    total_clicks := (rs.map (fun r => r.mouse_clicks)).sum,
    total_presses := (rs.map (fun r => r.keyboard_presses)).sum,
    avg_busy := if rs.length = 0 then 0
      else (rs.map (fun r => r.busy_index)).sum / (rs.length : ℚ) }

/-- `Database.end_session`: looks the session up by id (failure if absent),
sets `end_time = now`, the truncated duration in minutes, and the aggregates
scanned from the records in `[start_time, now]`.  The stored `end_time` is
overwritten even if the session was already closed: the query only checks
that the id exists. -/
def end_session (db : List Session) (recs : List MinuteRecord) (sid : ℕ)
    (now : ℚ) : List Session × Bool :=
  match db.find? (fun s => s.id = sid) with
  | none => (db, false)
  | some s0 =>
    let start_time := s0.start_time
    let duration := truncQ ((now - start_time) / 60)
    let stats := sessionStats recs start_time now
    (db.map (fun s =>
      if s.id = sid then
        { s with end_time := some now,
                 duration_minutes := some duration,
                 active_minutes := some stats.active_minutes,
                 idle_minutes := some stats.idle_minutes,
                 total_mouse_clicks := stats.total_clicks,
                 total_key_presses := stats.total_presses,
                 average_busy_index := stats.avg_busy }
      else s), true)

/-- Number of open rows (SQL `end_time IS NULL`) in the sessions table. -/
def countOpen (db : List Session) : ℕ :=
  db.countP (fun s => s.end_time = none)

/-- Session start and end operations issued against the store, each at a
wall-clock time. -/
inductive Op where
  | startOp (now : ℚ)
  | endOp (sid : ℕ) (now : ℚ)
deriving DecidableEq

/-- Wall-clock time of an operation. -/
def opTime : Op → ℚ
  | Op.startOp now => now
  | Op.endOp _ now => now

/-- Apply one session operation to the table. -/
def applyOp (recs : List MinuteRecord) (db : List Session) : Op → List Session
  | Op.startOp now => (start_session db now).1
  | Op.endOp sid now => (end_session db recs sid now).1

/-- Run a sequence of session operations. -/
def runOps (recs : List MinuteRecord) (db : List Session) :
    List Op → List Session
  | [] => db
  | op :: ops => runOps recs (applyOp recs db op) ops

/-- One row of the `daily_stats` table (the autoincrement surrogate id is
not modelled; the table is keyed by its unique `stat_date`). -/
structure DailyStat where
  stat_date : ℤ
  first_boot_time : Option ℚ
  last_shutdown_time : Option ℚ
  total_active_minutes : ℕ
  total_idle_minutes : ℕ
  nap_minutes : ℕ
  total_mouse_clicks : ℕ
  total_key_presses : ℕ
  total_window_switches : ℕ
  total_mouse_distance : ℚ
  average_busy_index : ℚ
  max_busy_index : ℚ
  work_sessions : ℕ
deriving DecidableEq

/-- Start of calendar day `d`: `datetime.combine(date, datetime.min.time())`. -/
def startOfDay (d : ℤ) : ℚ := (d : ℚ) * 86400

/-- Upper bound of the rollup window for day `d`: 02:00 of the next day. -/
def endOfWindow (d : ℤ) : ℚ := startOfDay (d + 1) + 2 * 3600

/-- Activity filter of `Database.update_daily_stats`:
`timestamp >= start_of_day AND timestamp < end_of_day`. -/
def activityInWindow (d : ℤ) (r : MinuteRecord) : Bool :=
  decide (startOfDay d ≤ r.timestamp) && decide (r.timestamp < endOfWindow d)

/-- Records aggregated into the daily rollup of day `d`. -/
def dailyActivityRecords (d : ℤ) (recs : List MinuteRecord) : List MinuteRecord :=
  recs.filter (activityInWindow d)

/-- Session filter of `Database.update_daily_stats`: `session_date = D OR
(session_date = D + 1 AND strftime(Hformat, start_time) < "02")` (the string
comparison of a zero-padded hour is the numeric comparison). -/
def sessionMatchesDay (d : ℤ) (s : Session) : Bool :=
  decide (s.session_date = d) ||
    (decide (s.session_date = d + 1) && decide (hourOf s.start_time < 2))

/-- Fold computing the SQL `MIN` of a list of values, NULL on an empty set. -/
def listMinQ (l : List ℚ) : Option ℚ :=
  l.foldl (fun acc x => match acc with
    | none => some x
    | some y => some (min y x)) none

/-- Fold computing the SQL `MAX` of a list of values, NULL on an empty set. -/
def listMaxQ (l : List ℚ) : Option ℚ :=
  l.foldl (fun acc x => match acc with
    | none => some x
    | some y => some (max y x)) none

/-- Nap filter of `Database.update_daily_stats`: idle records whose local
hour is in 12..14, with `timestamp BETWEEN start AND end` (both inclusive). -/
def napRecord (d : ℤ) (r : MinuteRecord) : Bool :=
  decide (startOfDay d ≤ r.timestamp) && decide (r.timestamp ≤ endOfWindow d) &&
    r.is_idle && decide (12 ≤ hourOf r.timestamp) && decide (hourOf r.timestamp ≤ 14)

/-- The freshly computed `daily_stats` row of `Database.update_daily_stats`
for day `d`: boot/shutdown times and session count from the matching
sessions (shutdown times capped at the window's upper bound, open sessions
contributing NULL which `MAX` skips), activity sums/average/maximum over
`dailyActivityRecords`, nap minutes over `napRecord` (SQL aggregates that
are NULL on an empty set become 0 through the source's `or 0`). -/
def computeDailyStat (d : ℤ) (recs : List MinuteRecord)
    (sess : List Session) : DailyStat :=
  let daySessions := sess.filter (sessionMatchesDay d)
  let eod := endOfWindow d
  let rs := dailyActivityRecords d recs
  { stat_date := d,
    first_boot_time := listMinQ (daySessions.map (fun s => s.start_time)),
    last_shutdown_time := listMaxQ (daySessions.filterMap (fun s =>
      s.end_time.map (fun e => if e ≤ eod then e else eod))),
    total_active_minutes := rs.countP (fun r => !r.is_idle),
    total_idle_minutes := rs.countP (fun r => r.is_idle),
    nap_minutes := (recs.filter (napRecord d)).length,
    total_mouse_clicks := (rs.map (fun r => r.mouse_clicks)).sum,
    total_key_presses := (rs.map (fun r => r.keyboard_presses)).sum,
    total_window_switches := (rs.map (fun r => r.window_switches)).sum,
    total_mouse_distance := (rs.map (fun r => r.mouse_distance)).sum,
    average_busy_index := if rs.length = 0 then 0
      else (rs.map (fun r => r.busy_index)).sum / (rs.length : ℚ),
    max_busy_index := (listMaxQ (rs.map (fun r => r.busy_index))).getD 0,
    work_sessions := daySessions.length }

/-- `Database.update_daily_stats`: recomputes day `d`'s row and upserts it
into the table (`INSERT OR REPLACE` on the unique `stat_date`: any existing
row for `d` is deleted and the fresh row inserted). -/
def update_daily_stats (d : ℤ) (recs : List MinuteRecord)
    (sess : List Session) (stats : List DailyStat) : List DailyStat :=
  stats.filter (fun x => decide (x.stat_date ≠ d)) ++ [computeDailyStat d recs sess]

/-- Initial `ActivityMonitor` state (`__init__`): zero counters, no last
position or window, activity clock at the construction time, taken as 0. -/
def initialState : MonitorState :=
  { mouse_distance := 0, mouse_clicks := 0, mouse_moves := 0,
    keyboard_presses := 0, window_switches := 0, last_mouse_pos := none,
    last_active_window := none, last_activity_time := 0 }

/-- Minute record with a given timestamp, idle flag and click count and all
other fields zero or empty, for concrete scenarios. -/
def mkRecord (ts : ℚ) (idle : Bool) (clicks : ℕ) : MinuteRecord :=
  { timestamp := ts, mouse_distance := 0, mouse_clicks := clicks,
    mouse_moves := 0, keyboard_presses := 0, window_switches := 0,
    active_windows := 0, cpu_usage := 0, memory_usage := 0, busy_index := 0,
    is_idle := idle, active_window_title := [] }

/-- Session row inserted by `start_session` on an empty table at time 0. -/
def sessionOne : Session :=
  { id := 1, session_date := dateOf 0, start_time := 0, end_time := none,
    duration_minutes := none, active_minutes := none, idle_minutes := none,
    total_mouse_clicks := 0, total_key_presses := 0, average_busy_index := 0 }

/-- An already-closed session row: started at 0, ended at 50. -/
def closedSessionRow : Session :=
  { id := 1, session_date := 0, start_time := 0, end_time := some 50,
    duration_minutes := some 0, active_minutes := some 0,
    idle_minutes := some 0, total_mouse_clicks := 0, total_key_presses := 0,
    average_busy_index := 0 }

/-- Closed-session well-formedness: a closed row's end time is at or after
its start time (trivially true of an open row). -/
def closedOk (s : Session) : Bool :=
  match s.end_time with
  | none => true
  | some e => decide (s.start_time ≤ e)

/-- Operation times are nondecreasing starting from `t` (the wall clock
never runs backwards across the issued operations). -/
def Mono : ℚ → List Op → Prop
  | _, [] => True
  | t, op :: ops => t ≤ opTime op ∧ Mono (opTime op) ops

/-- Operation sequences in which every start is issued only while no
session row is open (the discipline the spec's `start()` contract asks
for: the source itself never checks). -/
inductive GuardedFrom (recs : List MinuteRecord) : List Session → List Op → Prop
  | nil (db : List Session) : GuardedFrom recs db []
  | startG (db : List Session) (t : ℚ) (ops : List Op) :
      countOpen db = 0 →
      GuardedFrom recs (applyOp recs db (Op.startOp t)) ops →
      GuardedFrom recs db (Op.startOp t :: ops)
  | endG (db : List Session) (sid : ℕ) (t : ℚ) (ops : List Op) :
      GuardedFrom recs (applyOp recs db (Op.endOp sid t)) ops →
      GuardedFrom recs db (Op.endOp sid t :: ops)

/-- Invariant threaded through the session-operation proofs: at most one
open row, every row started no later than the clock `t`, and every closed
row well-formed. -/
def Inv (t : ℚ) (db : List Session) : Prop :=
  countOpen db ≤ 1 ∧ ∀ s ∈ db, s.start_time ≤ t ∧ closedOk s = true

/-- Helper: the clamp in `calculate_busy_index` keeps every output, for
every weight configuration and every sub-score input, inside [0, 100]. -/
theorem calculate_busy_index_range (w : BusyWeights)
    (m k win sys : ℚ) :
    0 ≤ calculate_busy_index w m k win sys ∧
      calculate_busy_index w m k win sys ≤ 100 := by
  unfold calculate_busy_index
  exact ⟨le_min (by norm_num) (le_max_left 0 _), min_le_left _ _⟩

/-- Helper: rounding to two decimals keeps a nonnegative value nonnegative. -/
theorem round2_nonneg {x : ℚ} (h0 : 0 ≤ x) : 0 ≤ round2 x := by
  unfold round2
  have hfl : (0 : ℤ) ≤ round (x * 100) := by
    rw [round_eq, Int.le_floor]
    push_cast
    linarith
  positivity

/-- Helper: rounding to two decimals keeps a value at most 100 at most 100. -/
theorem round2_le_100 {x : ℚ} (h1 : x ≤ 100) : round2 x ≤ 100 := by
  unfold round2
  have hfl : round (x * 100) ≤ 10000 := by
    rw [round_eq]
    have h2 : (⌊x * 100 + 1 / 2⌋ : ℚ) ≤ x * 100 + 1 / 2 := Int.floor_le _
    have h3 : ((⌊x * 100 + 1 / 2⌋ : ℤ) : ℚ) < 10001 := by linarith
    have h4 : (⌊x * 100 + 1 / 2⌋ : ℤ) < 10001 := by exact_mod_cast h3
    omega
  rw [div_le_iff₀ (by norm_num)]
  calc ((round (x * 100) : ℤ) : ℚ) ≤ ((10000 : ℤ) : ℚ) := by exact_mod_cast hfl
    _ = 100 * 100 := by norm_num

/-- C1: for every sub-score input and every weight configuration the
computed busy index lies in [0, 100]; and the busy index stored in the
minute record of any tick is 0 whenever the tick's idle flag is set, and in
[0, 100] always. -/
theorem claim_C1_busy_index_range_and_idle_forced_zero :
    (∀ (w : BusyWeights) (m k win sys : ℚ),
      0 ≤ calculate_busy_index w m k win sys ∧
        calculate_busy_index w m k win sys ≤ 100) ∧
    (∀ (s : MonitorState) (now : ℚ) (title : List Char) (wcount : ℕ)
        (cpu mem : ℚ) (saveOk : Bool),
      ((collect_and_save_data s now title wcount cpu mem saveOk).2.1.is_idle = true →
        (collect_and_save_data s now title wcount cpu mem saveOk).2.1.busy_index = 0) ∧
      0 ≤ (collect_and_save_data s now title wcount cpu mem saveOk).2.1.busy_index ∧
      (collect_and_save_data s now title wcount cpu mem saveOk).2.1.busy_index ≤ 100) := by
  refine ⟨calculate_busy_index_range, ?_⟩
  intro s now title wcount cpu mem saveOk
  simp only [collect_and_save_data, get_active_window_info]
  cases h : is_idle now (record_window_sample s title).last_activity_time with
  | true =>
    refine ⟨fun _ => ?_, ?_, ?_⟩ <;>
      simp [h, round2, round_eq] <;> norm_num
  | false =>
    have hrange := calculate_busy_index_range BUSY_WEIGHTS
      (min 100 ((record_window_sample s title).mouse_distance /
          (5000 * (MONITOR_INTERVAL / 60)) * 50 +
        ((record_window_sample s title).mouse_clicks : ℚ) /
          (50 * (MONITOR_INTERVAL / 60)) * 30 +
        ((record_window_sample s title).mouse_moves : ℚ) /
          (500 * (MONITOR_INTERVAL / 60)) * 20))
      (min 100 (((record_window_sample s title).keyboard_presses : ℚ) /
        (300 * (MONITOR_INTERVAL / 60)) * 100))
      (min 100 (((record_window_sample s title).window_switches : ℚ) /
        (10 * (MONITOR_INTERVAL / 60)) * 100))
      ((cpu + mem) / 2)
    refine ⟨fun hc => ?_, ?_, ?_⟩
    · simp [h] at hc
    · simp only [h, Bool.false_eq_true, if_false]
      exact round2_nonneg hrange.1
    · simp only [h, Bool.false_eq_true, if_false]
      exact round2_le_100 hrange.2

/-- Witness for C1: a concrete tick 1000 seconds after the last activity is
marked idle and stores a zero busy index. -/
theorem claim_C1_witness :
    (collect_and_save_data initialState 1000 [] 0 0 0 true).2.1.is_idle = true ∧
    (collect_and_save_data initialState 1000 [] 0 0 0 true).2.1.busy_index = 0 := by
  have h : (collect_and_save_data initialState 1000 [] 0 0 0 true).2.1.is_idle
      = true := by
    simp [collect_and_save_data, get_active_window_info, record_window_sample,
      is_idle, IDLE_THRESHOLD, initialState]
    norm_num
  exact ⟨h, (claim_C1_busy_index_range_and_idle_forced_zero.2
    initialState 1000 [] 0 0 0 true).1 h⟩

/-- C9: `is_idle` is true exactly when the time since the last activity
exceeds the 600-second threshold; within a quiet period it is false up to
600 seconds after the last activity and true at every later time. -/
theorem claim_C9_is_idle_iff_threshold_exceeded :
    (∀ now last : ℚ, is_idle now last = true ↔ now - last > IDLE_THRESHOLD) ∧
    IDLE_THRESHOLD = 600 ∧
    (∀ last t : ℚ, t ≤ last + 600 → is_idle t last = false) ∧
    (∀ last t : ℚ, last + 600 < t → is_idle t last = true) := by
  refine ⟨fun now last => by simp [is_idle], by norm_num [IDLE_THRESHOLD], ?_, ?_⟩
  · intro last t h
    simp only [is_idle, IDLE_THRESHOLD, decide_eq_false_iff_not, not_lt]
    linarith
  · intro last t h
    simp only [is_idle, IDLE_THRESHOLD, decide_eq_true_eq]
    linarith

/-- Witness for C9 at threshold 600 and last activity 0: idle is false at
t = 600 and true at t = 601. -/
theorem claim_C9_witness :
    (600 : ℚ) ≤ 0 + 600 ∧ (0 : ℚ) + 600 < 601 ∧
      is_idle 600 0 = false ∧ is_idle 601 0 = true :=
  ⟨by norm_num, by norm_num,
    claim_C9_is_idle_iff_threshold_exceeded.2.2.1 0 600 (by norm_num),
    claim_C9_is_idle_iff_threshold_exceeded.2.2.2 0 601 (by norm_num)⟩

/-- C10: the record written by a tick stores the sampled foreground-window
title truncated to its first 200 characters, so its length is at most 200. -/
theorem claim_C10_window_title_truncated_to_200 :
    ∀ (s : MonitorState) (now : ℚ) (title : List Char) (wcount : ℕ)
      (cpu mem : ℚ) (saveOk : Bool),
      (collect_and_save_data s now title wcount cpu mem saveOk).2.1.active_window_title
          = title.take 200 ∧
      (collect_and_save_data s now title wcount cpu mem
          saveOk).2.1.active_window_title.length ≤ 200 := by
  intro s now title wcount cpu mem saveOk
  constructor
  · simp [collect_and_save_data, get_active_window_info]
  · simp [collect_and_save_data, get_active_window_info, List.length_take]

/-- C5: the source resets every counter unconditionally at the end of the
tick, even when the save reported failure, so the accumulated data of a
failed tick is discarded rather than retained. -/
theorem claim_C5_counters_reset_even_when_save_fails :
    ∀ (s : MonitorState) (now : ℚ) (title : List Char) (wcount : ℕ)
      (cpu mem : ℚ),
      (collect_and_save_data s now title wcount cpu mem false).2.2 = false ∧
      (collect_and_save_data s now title wcount cpu mem false).1.mouse_distance = 0 ∧
      (collect_and_save_data s now title wcount cpu mem false).1.mouse_clicks = 0 ∧
      (collect_and_save_data s now title wcount cpu mem false).1.mouse_moves = 0 ∧
      (collect_and_save_data s now title wcount cpu mem false).1.keyboard_presses = 0 ∧
      (collect_and_save_data s now title wcount cpu mem false).1.window_switches = 0 := by
  intro s now title wcount cpu mem
  refine ⟨rfl, ?_, ?_, ?_, ?_, ?_⟩ <;>
    simp [collect_and_save_data, get_active_window_info, reset_counters]

/-- C4: recomputing the daily rollup for the same date over unchanged
records and sessions is idempotent: the upsert keyed by the unique date
leaves the table exactly as after one run. -/
theorem claim_C4_daily_rollup_idempotent :
    ∀ (d : ℤ) (recs : List MinuteRecord) (sess : List Session)
      (stats : List DailyStat),
      update_daily_stats d recs sess (update_daily_stats d recs sess stats) =
        update_daily_stats d recs sess stats := by
  intro d recs sess stats
  have hdate : (computeDailyStat d recs sess).stat_date = d := rfl
  simp [update_daily_stats, List.filter_append, List.filter_filter, hdate]

/-- C2 counterexample: with day 0 as D, a record timestamped 01:30 of day 1
(second 91800) lies inside the rollup window of day 0 AND inside the rollup
window of day 1, and its clicks are aggregated into DailyStat(1) as well —
the windows of consecutive days overlap on [D+1 00:00, D+1 02:00). -/
theorem claim_C2_counterexample :
    activityInWindow 0 (mkRecord 91800 false 5) = true ∧
    activityInWindow 1 (mkRecord 91800 false 5) = true ∧
    (computeDailyStat 1 [mkRecord 91800 false 5] []).total_mouse_clicks = 5 := by
  refine ⟨?_, ?_, ?_⟩ <;>
    norm_num [activityInWindow, startOfDay, endOfWindow, mkRecord,
      computeDailyStat, dailyActivityRecords, List.filter]

/-- C2 amended: the rollup for day `d` aggregates exactly the records with
timestamp in [d 00:00, (d+1) 02:00); a record at (d+1) 01:30 falls in the
windows of both day `d` and day `d+1`, while a record at (d+1) 02:30 falls
only in the window of day `d+1`. -/
theorem claim_C2_amended_rollup_window_overlap :
    ∀ (d : ℤ) (recs : List MinuteRecord) (r : MinuteRecord),
      (r ∈ dailyActivityRecords d recs ↔
        r ∈ recs ∧ startOfDay d ≤ r.timestamp ∧ r.timestamp < endOfWindow d) ∧
      activityInWindow d (mkRecord (startOfDay (d + 1) + 5400) false 0) = true ∧
      activityInWindow (d + 1) (mkRecord (startOfDay (d + 1) + 5400) false 0) = true ∧
      activityInWindow d (mkRecord (startOfDay (d + 1) + 9000) false 0) = false ∧
      activityInWindow (d + 1) (mkRecord (startOfDay (d + 1) + 9000) false 0) = true := by
  intro d recs r
  refine ⟨?_, ?_, ?_, ?_, ?_⟩
  · simp [dailyActivityRecords, List.mem_filter, activityInWindow, and_assoc]
  · have h1 : (startOfDay d ≤ startOfDay (d + 1) + 5400) := by
      simp only [startOfDay]; push_cast; linarith
    have h2 : (startOfDay (d + 1) + 5400 < endOfWindow d) := by
      simp only [startOfDay, endOfWindow]; push_cast; linarith
    simp [activityInWindow, mkRecord, h1, h2]
  · have h1 : (startOfDay (d + 1) ≤ startOfDay (d + 1) + 5400) := by linarith
    have h2 : (startOfDay (d + 1) + 5400 < endOfWindow (d + 1)) := by
      simp only [startOfDay, endOfWindow]; push_cast; linarith
    simp [activityInWindow, mkRecord, h1, h2]
  · have h2 : ¬ (startOfDay (d + 1) + 9000 < endOfWindow d) := by
      simp only [startOfDay, endOfWindow]; push_cast; linarith
    simp [activityInWindow, mkRecord, h2]
  · have h1 : (startOfDay (d + 1) ≤ startOfDay (d + 1) + 9000) := by linarith
    have h2 : (startOfDay (d + 1) + 9000 < endOfWindow (d + 1)) := by
      simp only [startOfDay, endOfWindow]; push_cast; linarith
    simp [activityInWindow, mkRecord, h1, h2]

/-- Helper: processing a concatenation processes the parts in order. -/
theorem processEvents_append (dist : ℚ × ℚ → ℚ × ℚ → ℚ)
    (evs1 evs2 : List Event) :
    ∀ s : MonitorState, processEvents dist s (evs1 ++ evs2) =
      processEvents dist (processEvents dist s evs1) evs2 := by
  induction evs1 with
  | nil => intro s; simp [processEvents]
  | cons e es ih => intro s; simp [processEvents, ih]

/-- Helper: the click counter accumulates exactly the press transitions. -/
theorem processEvents_clicks (dist : ℚ × ℚ → ℚ × ℚ → ℚ) (evs : List Event) :
    ∀ s : MonitorState,
      (processEvents dist s evs).mouse_clicks = s.mouse_clicks + countClicks evs := by
  induction evs with
  | nil => intro s; simp [processEvents, countClicks]
  | cons e es ih =>
    intro s
    cases e with
    | mouseMove x y t => simp [processEvents, applyEvent, countClicks, ih, on_mouse_move]
    | mouseClick pressed t =>
      cases pressed <;>
        simp [processEvents, applyEvent, countClicks, ih, on_mouse_click] <;> omega
    | keyPress t => simp [processEvents, applyEvent, countClicks, ih, on_key_press]
    | windowSample title =>
      simp [processEvents, applyEvent, countClicks, ih, record_window_sample]

/-- Helper: the move counter accumulates exactly the move events. -/
theorem processEvents_moves (dist : ℚ × ℚ → ℚ × ℚ → ℚ) (evs : List Event) :
    ∀ s : MonitorState,
      (processEvents dist s evs).mouse_moves = s.mouse_moves + countMoves evs := by
  induction evs with
  | nil => intro s; simp [processEvents, countMoves]
  | cons e es ih =>
    intro s
    cases e with
    | mouseMove x y t =>
      simp [processEvents, applyEvent, countMoves, ih, on_mouse_move]; omega
    | mouseClick pressed t =>
      cases pressed <;>
        simp [processEvents, applyEvent, countMoves, ih, on_mouse_click]
    | keyPress t => simp [processEvents, applyEvent, countMoves, ih, on_key_press]
    | windowSample title =>
      simp [processEvents, applyEvent, countMoves, ih, record_window_sample]

/-- Helper: the key counter accumulates exactly the key-press events. -/
theorem processEvents_keys (dist : ℚ × ℚ → ℚ × ℚ → ℚ) (evs : List Event) :
    ∀ s : MonitorState,
      (processEvents dist s evs).keyboard_presses =
        s.keyboard_presses + countKeys evs := by
  induction evs with
  | nil => intro s; simp [processEvents, countKeys]
  | cons e es ih =>
    intro s
    cases e with
    | mouseMove x y t => simp [processEvents, applyEvent, countKeys, ih, on_mouse_move]
    | mouseClick pressed t =>
      cases pressed <;>
        simp [processEvents, applyEvent, countKeys, ih, on_mouse_click]
    | keyPress t =>
      simp [processEvents, applyEvent, countKeys, ih, on_key_press]; omega
    | windowSample title =>
      simp [processEvents, applyEvent, countKeys, ih, record_window_sample]

/-- Helper: the distance counter accumulates exactly the per-step travel. -/
theorem processEvents_distance (dist : ℚ × ℚ → ℚ × ℚ → ℚ) (evs : List Event) :
    ∀ s : MonitorState,
      (processEvents dist s evs).mouse_distance =
        s.mouse_distance + sumDist dist s.last_mouse_pos evs := by
  induction evs with
  | nil => intro s; simp [processEvents, sumDist]
  | cons e es ih =>
    intro s
    cases e with
    | mouseMove x y t =>
      simp [processEvents, applyEvent, sumDist, ih, on_mouse_move]; ring
    | mouseClick pressed t =>
      cases pressed <;>
        simp [processEvents, applyEvent, sumDist, ih, on_mouse_click]
    | keyPress t => simp [processEvents, applyEvent, sumDist, ih, on_key_press]
    | windowSample title =>
      simp [processEvents, applyEvent, sumDist, ih, record_window_sample]

/-- Helper: the switch counter accumulates exactly the registered switches. -/
theorem processEvents_switches (dist : ℚ × ℚ → ℚ × ℚ → ℚ) (evs : List Event) :
    ∀ s : MonitorState,
      (processEvents dist s evs).window_switches =
        s.window_switches + countSwitches s.last_active_window evs := by
  induction evs with
  | nil => intro s; simp [processEvents, countSwitches]
  | cons e es ih =>
    intro s
    cases e with
    | mouseMove x y t =>
      simp [processEvents, applyEvent, countSwitches, ih, on_mouse_move]
    | mouseClick pressed t =>
      cases pressed <;>
        simp [processEvents, applyEvent, countSwitches, ih, on_mouse_click]
    | keyPress t => simp [processEvents, applyEvent, countSwitches, ih, on_key_press]
    | windowSample title =>
      simp [processEvents, applyEvent, countSwitches, ih, record_window_sample]
      omega

/-- C3: starting from zeroed counters, the record built by the next tick
snapshots exactly the per-event sums (clicks, moves, key presses, travelled
distance, and window switches including the tick's own window sample), and
after the tick's reset every counter is zero again. -/
theorem claim_C3_snapshot_counts_exact :
    ∀ (dist : ℚ × ℚ → ℚ × ℚ → ℚ) (s0 : MonitorState) (evs : List Event)
      (now : ℚ) (title : List Char) (wcount : ℕ) (cpu mem : ℚ) (saveOk : Bool),
      s0.mouse_distance = 0 → s0.mouse_clicks = 0 → s0.mouse_moves = 0 →
      s0.keyboard_presses = 0 → s0.window_switches = 0 →
      ((collect_and_save_data (processEvents dist s0 evs) now title wcount cpu mem
          saveOk).2.1.mouse_clicks = countClicks evs ∧
        (collect_and_save_data (processEvents dist s0 evs) now title wcount cpu mem
          saveOk).2.1.mouse_moves = countMoves evs ∧
        (collect_and_save_data (processEvents dist s0 evs) now title wcount cpu mem
          saveOk).2.1.keyboard_presses = countKeys evs ∧
        (processEvents dist s0 evs).mouse_distance =
          sumDist dist s0.last_mouse_pos evs ∧
        (collect_and_save_data (processEvents dist s0 evs) now title wcount cpu mem
          saveOk).2.1.mouse_distance = round2 (sumDist dist s0.last_mouse_pos evs) ∧
        (collect_and_save_data (processEvents dist s0 evs) now title wcount cpu mem
          saveOk).2.1.window_switches =
          countSwitches s0.last_active_window (evs ++ [Event.windowSample title]) ∧
        (collect_and_save_data (processEvents dist s0 evs) now title wcount cpu mem
          saveOk).1.mouse_distance = 0 ∧
        (collect_and_save_data (processEvents dist s0 evs) now title wcount cpu mem
          saveOk).1.mouse_clicks = 0 ∧
        (collect_and_save_data (processEvents dist s0 evs) now title wcount cpu mem
          saveOk).1.mouse_moves = 0 ∧
        (collect_and_save_data (processEvents dist s0 evs) now title wcount cpu mem
          saveOk).1.keyboard_presses = 0 ∧
        (collect_and_save_data (processEvents dist s0 evs) now title wcount cpu mem
          saveOk).1.window_switches = 0) := by
  intro dist s0 evs now title wcount cpu mem saveOk hd hc hm hk hw
  have hclicks := processEvents_clicks dist evs s0
  have hmoves := processEvents_moves dist evs s0
  have hkeys := processEvents_keys dist evs s0
  have hdist := processEvents_distance dist evs s0
  have hsw := processEvents_switches dist (evs ++ [Event.windowSample title]) s0
  rw [processEvents_append] at hsw
  simp [processEvents, applyEvent, record_window_sample, hw] at hsw
  rw [hd] at hdist
  refine ⟨?_, ?_, ?_, ?_, ?_, ?_, ?_, ?_, ?_, ?_, ?_⟩ <;>
    simp [collect_and_save_data, get_active_window_info, record_window_sample,
      reset_counters, hclicks, hmoves, hkeys, hdist, hc, hm, hk, hw] <;>
    omega

/-- Concrete event trace for the C3 witness: a mouse move, a pressed click,
a key press. -/
def evsC3 : List Event :=
  [Event.mouseMove 3 4 1, Event.mouseClick true 2, Event.keyPress 3]

/-- Witness for C3: the initial monitor state has zeroed counters, and the
tick after the concrete trace `evsC3` (with a constant distance function)
snapshots the event sums and leaves zeroed counters. -/
theorem claim_C3_witness :
    initialState.mouse_distance = 0 ∧ initialState.mouse_clicks = 0 ∧
    initialState.mouse_moves = 0 ∧ initialState.keyboard_presses = 0 ∧
    initialState.window_switches = 0 ∧
    ((collect_and_save_data (processEvents (fun _ _ => 5) initialState evsC3)
        4 [] 0 0 0 true).2.1.mouse_clicks = countClicks evsC3 ∧
      (collect_and_save_data (processEvents (fun _ _ => 5) initialState evsC3)
        4 [] 0 0 0 true).2.1.mouse_moves = countMoves evsC3 ∧
      (collect_and_save_data (processEvents (fun _ _ => 5) initialState evsC3)
        4 [] 0 0 0 true).2.1.keyboard_presses = countKeys evsC3 ∧
      (processEvents (fun _ _ => 5) initialState evsC3).mouse_distance =
        sumDist (fun _ _ => 5) initialState.last_mouse_pos evsC3 ∧
      (collect_and_save_data (processEvents (fun _ _ => 5) initialState evsC3)
        4 [] 0 0 0 true).2.1.mouse_distance =
        round2 (sumDist (fun _ _ => 5) initialState.last_mouse_pos evsC3) ∧
      (collect_and_save_data (processEvents (fun _ _ => 5) initialState evsC3)
        4 [] 0 0 0 true).2.1.window_switches =
        countSwitches initialState.last_active_window
          (evsC3 ++ [Event.windowSample []]) ∧
      (collect_and_save_data (processEvents (fun _ _ => 5) initialState evsC3)
        4 [] 0 0 0 true).1.mouse_distance = 0 ∧
      (collect_and_save_data (processEvents (fun _ _ => 5) initialState evsC3)
        4 [] 0 0 0 true).1.mouse_clicks = 0 ∧
      (collect_and_save_data (processEvents (fun _ _ => 5) initialState evsC3)
        4 [] 0 0 0 true).1.mouse_moves = 0 ∧
      (collect_and_save_data (processEvents (fun _ _ => 5) initialState evsC3)
        4 [] 0 0 0 true).1.keyboard_presses = 0 ∧
      (collect_and_save_data (processEvents (fun _ _ => 5) initialState evsC3)
        4 [] 0 0 0 true).1.window_switches = 0) :=
  ⟨rfl, rfl, rfl, rfl, rfl,
    claim_C3_snapshot_counts_exact (fun _ _ => 5) initialState evsC3
      4 [] 0 0 0 true rfl rfl rfl rfl rfl⟩

/-- Helper: a row update that never opens a closed row cannot increase the
number of open rows. -/
theorem countOpen_map_le (f : Session → Session)
    (hf : ∀ s : Session, (f s).end_time = none → s.end_time = none) :
    ∀ db : List Session, countOpen (db.map f) ≤ countOpen db := by
  intro db
  induction db with
  | nil => simp [countOpen]
  | cons a l ih =>
    simp only [List.map_cons, countOpen, List.countP_cons] at ih ⊢
    have hind : (if decide ((f a).end_time = none) = true then 1 else 0) ≤
        (if decide (a.end_time = none) = true then 1 else 0) := by
      by_cases h : (f a).end_time = none
      · have ha : a.end_time = none := hf a h
        simp [h, ha]
      · simp [h]
    omega

/-- Helper: a guarded start preserves the session invariant. -/
theorem inv_applyOp_start (recs : List MinuteRecord) (db : List Session)
    (t tn : ℚ) (h : Inv t db) (hopen : countOpen db = 0) (ht : t ≤ tn) :
    Inv tn (applyOp recs db (Op.startOp tn)) := by
  obtain ⟨h1, h2⟩ := h
  constructor
  · have hzero : List.countP (fun s => decide (s.end_time = none)) db = 0 := hopen
    simp [applyOp, start_session, countOpen, List.countP_append, hzero]
  · intro s hs
    simp only [applyOp, start_session, List.mem_append, List.mem_singleton] at hs
    rcases hs with hs | hs
    · exact ⟨le_trans (h2 s hs).1 ht, (h2 s hs).2⟩
    · subst hs
      exact ⟨le_refl _, rfl⟩

/-- Helper: an end operation preserves the session invariant. -/
theorem inv_applyOp_end (recs : List MinuteRecord) (db : List Session)
    (sid : ℕ) (t tn : ℚ) (h : Inv t db) (ht : t ≤ tn) :
    Inv tn (applyOp recs db (Op.endOp sid tn)) := by
  obtain ⟨h1, h2⟩ := h
  cases hfind : db.find? (fun s => s.id = sid) with
  | none =>
    simp only [applyOp, end_session, hfind]
    exact ⟨h1, fun s hs => ⟨le_trans (h2 s hs).1 ht, (h2 s hs).2⟩⟩
  | some s0 =>
    simp only [applyOp, end_session, hfind]
    constructor
    · refine le_trans (countOpen_map_le _ ?_ db) h1
      intro s hs
      by_cases hid : s.id = sid
      · simp [hid] at hs
      · simpa [hid] using hs
    · intro s2 hs2
      obtain ⟨s, hs, rfl⟩ := List.mem_map.mp hs2
      by_cases hid : s.id = sid
      · have hstart : s.start_time ≤ tn := le_trans (h2 s hs).1 ht
        simp [hid, closedOk, hstart]
      · simpa [hid] using ⟨le_trans (h2 s hs).1 ht, (h2 s hs).2⟩

/-- Helper: running a guarded, clock-monotone operation sequence preserves
the session invariant at some final clock value. -/
theorem inv_runOps (recs : List MinuteRecord) :
    ∀ (ops : List Op) (db : List Session) (t : ℚ),
      GuardedFrom recs db ops → Mono t ops → Inv t db →
      ∃ t2 : ℚ, Inv t2 (runOps recs db ops) := by
  intro ops
  induction ops with
  | nil => intro db t _ _ hinv; exact ⟨t, hinv⟩
  | cons op ops ih =>
    intro db t hg hm hinv
    cases op with
    | startOp tn =>
      cases hg with
      | startG _ _ _ hopen gtail =>
        exact ih _ tn gtail hm.2 (inv_applyOp_start recs db t tn hinv hopen hm.1)
    | endOp sid tn =>
      cases hg with
      | endG _ _ _ _ gtail =>
        exact ih _ tn gtail hm.2 (inv_applyOp_end recs db sid t tn hinv hm.1)

/-- C6 counterexample: two start operations with no end in between (the
restart-after-crash scenario the claim includes) leave TWO sessions with a
null end time: `start_session` never checks for an already-open session. -/
theorem claim_C6_counterexample :
    countOpen (runOps [] [] [Op.startOp 0, Op.startOp 60]) = 2 := by rfl

/-- C6 amended: provided every start is issued only while no session is
open (which the source does not enforce) and the clock never runs
backwards, every reachable table has at most one open session and every
closed session's end time is at or after its start time. -/
theorem claim_C6_amended_session_invariant :
    ∀ (recs : List MinuteRecord) (ops : List Op) (t0 : ℚ),
      GuardedFrom recs [] ops → Mono t0 ops →
      countOpen (runOps recs [] ops) ≤ 1 ∧
        ∀ s ∈ runOps recs [] ops, closedOk s = true := by
  intro recs ops t0 hg hm
  obtain ⟨t2, h1, h2⟩ :=
    inv_runOps recs ops [] t0 hg hm ⟨by simp [countOpen], by simp⟩
  exact ⟨h1, fun s hs => (h2 s hs).2⟩

/-- Concrete operation sequence for the C6 witness: start, end, start. -/
def opsC6 : List Op := [Op.startOp 0, Op.endOp 1 60, Op.startOp 120]

/-- Witness for C6 (amended): the concrete guarded, monotone sequence
`opsC6` reaches a table with at most one open session and well-formed
closed sessions. -/
theorem claim_C6_witness :
    GuardedFrom [] [] opsC6 ∧ Mono 0 opsC6 ∧
      (countOpen (runOps [] [] opsC6) ≤ 1 ∧
        ∀ s ∈ runOps [] [] opsC6, closedOk s = true) := by
  have hg : GuardedFrom [] [] opsC6 :=
    GuardedFrom.startG _ _ _ (by rfl)
      (GuardedFrom.endG _ _ _ _
        (GuardedFrom.startG _ _ _ (by rfl)
          (GuardedFrom.nil _)))
  have hm : Mono 0 opsC6 := by
    refine ⟨?_, ?_, ?_, trivial⟩ <;> norm_num [opTime]
  exact ⟨hg, hm, claim_C6_amended_session_invariant [] opsC6 0 hg hm⟩

/-- Helper: the non-idle and idle counts of a record list sum to its length. -/
theorem countP_idle_split (l : List MinuteRecord) :
    l.countP (fun r => !r.is_idle) + l.countP (fun r => r.is_idle) = l.length := by
  induction l with
  | nil => simp
  | cons a l ih => cases hb : a.is_idle <;> simp [List.countP_cons, hb] <;> omega

/-- C7: in a table with unique session ids, the session closed by
`end_session` stores `end_time = now` and active plus idle minutes equal to
the number of records whose timestamp lies in the closed interval from its
start time to `now`. -/
theorem claim_C7_closed_session_minutes_partition :
    ∀ (db : List Session) (recs : List MinuteRecord) (sid : ℕ) (now : ℚ)
      (s0 : Session),
      (db.map (fun s => s.id)).Nodup →
      db.find? (fun s => s.id = sid) = some s0 →
      ∀ s2 ∈ (end_session db recs sid now).1, s2.id = sid →
        s2.end_time = some now ∧
        s2.active_minutes.getD 0 + s2.idle_minutes.getD 0 =
          (recs.filter (betweenTimes s2.start_time now)).length := by
  intro db recs sid now s0 hnd hfind s2 hs2 hid
  have hmem0 : s0 ∈ db := List.mem_of_find?_eq_some hfind
  have hid0 : s0.id = sid := by
    have := List.find?_some hfind
    simpa using this
  simp only [end_session, hfind] at hs2
  obtain ⟨s, hs, rfl⟩ := List.mem_map.mp hs2
  by_cases hcase : s.id = sid
  · have hss0 : s = s0 :=
      List.inj_on_of_nodup_map hnd hs hmem0 (by rw [hcase, hid0])
    subst hss0
    refine ⟨by simp [hcase], ?_⟩
    simp only [hcase, eq_self_iff_true, if_true, sessionStats, Option.getD_some]
    exact countP_idle_split (recs.filter (betweenTimes s.start_time now))
  · simp [hcase] at hid

/-- Witness table, records and call for C7: one open session started at 0,
two records at 30 (active) and 90 (idle), closed at 100. -/
theorem claim_C7_witness :
    (([sessionOne].map (fun s => s.id)).Nodup ∧
      [sessionOne].find? (fun s => s.id = 1) = some sessionOne) ∧
    ∀ s2 ∈ (end_session [sessionOne] [mkRecord 30 false 3, mkRecord 90 true 0]
        1 100).1, s2.id = 1 →
      s2.end_time = some 100 ∧
      s2.active_minutes.getD 0 + s2.idle_minutes.getD 0 =
        ([mkRecord 30 false 3, mkRecord 90 true 0].filter
          (betweenTimes s2.start_time 100)).length :=
  ⟨⟨by simp, rfl⟩,
    claim_C7_closed_session_minutes_partition [sessionOne]
      [mkRecord 30 false 3, mkRecord 90 true 0] 1 100 sessionOne
      (by simp) rfl⟩

/-- C8 counterexample: ending the already-closed session `closedSessionRow`
(closed at 50) is NOT a no-op failure: the call returns success and
overwrites the stored end time with the new time 100. -/
theorem claim_C8_counterexample :
    closedSessionRow.end_time = some 50 ∧
    (end_session [closedSessionRow] [] 1 100).2 = true ∧
    ((end_session [closedSessionRow] [] 1 100).1.map (fun s => s.end_time))
      = [some 100] :=
  ⟨rfl, rfl, rfl⟩

/-- C8 amended: ending a session id that matches no row is a no-op failure
(returns false and leaves the table unchanged); an existing but
already-closed session is instead re-closed with success. -/
theorem claim_C8_amended_end_unknown_id_noop :
    ∀ (db : List Session) (recs : List MinuteRecord) (sid : ℕ) (now : ℚ),
      db.find? (fun s => s.id = sid) = none →
      end_session db recs sid now = (db, false) := by
  intro db recs sid now h
  simp [end_session, h]

/-- Witness for C8 (amended): ending session 5 on an empty table fails and
changes nothing. -/
theorem claim_C8_witness :
    ([] : List Session).find? (fun s => s.id = 5) = none ∧
      end_session [] [] 5 0 = ([], false) :=
  ⟨rfl, claim_C8_amended_end_unknown_id_noop [] [] 5 0 rfl⟩

end DailyRoutine
